import Mathlib

/-!
Shallow embedding of the OpenCLSim discrete-event core, translated from the
repository sources:

* `openclsim/core/processor.py` — `Processor.determine_processor_amount`
* `openclsim/model/shift_amount_activity.py` — `ShiftAmountActivity`
* `openclsim/model/while_activity.py` — `ConditionProcessMixin`, `WhileActivity`,
  `RepeatActivity`
* `openclsim/plugins/weather.py` — `OffshoreEnvironment.find_window`,
  `WeatherPluginActivity.check_constraint` / `pre_process`

Quantities (container levels, capacities) and simulated times (epoch seconds)
are modelled as rationals `ℚ`; Python exceptions are modelled with `Except`.
-/

deriving instance DecidableEq for Except

namespace OpenCLSim

/-- Single-commodity view of an OpenCLSim container: the repository accesses a
container only through `get_capacity(id_)` and `get_level(id_)` for a fixed
`id_`, so we model the pair of numbers it returns for that id. -/
structure Container where
  capacity : ℚ
  level : ℚ
deriving DecidableEq

/-- Translation of `container.get_capacity(id_)` for the fixed commodity id. -/
def Container.get_capacity (c : Container) : ℚ := c.capacity

/-- Translation of `container.get_level(id_)` for the fixed commodity id. -/
def Container.get_level (c : Container) : ℚ := c.level

/-- The two `ValueError`s raised by `Processor.determine_processor_amount`
(`processor.py` lines 143-153), identified by which message they carry:
`"Attempting to shift content to a full destination ..."` and
`"Attempting to shift content from an empty origin ..."`. -/
inductive ProcessorError where
  | fullDestination : ProcessorError
  | emptyOrigin : ProcessorError
deriving DecidableEq

/-- Translation of `Processor.determine_processor_amount` (`processor.py`
lines 137-159).  The origin and destination enter only through their
containers, so the function takes the two `Container` views directly. -/
def determine_processor_amount (origin destination : Container)
    (amount : Option ℚ) : Except ProcessorError ℚ :=
  let destination_max_amount :=
    destination.get_capacity - destination.get_level
  if destination_max_amount ≤ 0 then
    .error .fullDestination
  else
    let origin_max_amount := origin.get_level
    if origin_max_amount ≤ 0 then
      .error .emptyOrigin
    else
      let new_amount := min origin_max_amount destination_max_amount
      match amount with
      | some a => .ok (min a new_amount)
      | none => .ok new_amount

/-- Errors that can surface while a `ShiftAmountActivity` starts: the two
`ValueError`s propagated from `determine_processor_amount`, and the
`RuntimeError` `"Attempting to shift content from an empty origin ... or to a
full destination ..."` raised at `shift_amount_activity.py` lines 128-131. -/
inductive ShiftError where
  | fullDestination : ShiftError
  | emptyOrigin : ShiftError
  | emptyOriginOrFullDestination : ShiftError
deriving DecidableEq

/-- Lift a `determine_processor_amount` error into the activity error type. -/
def ShiftError.ofProcessorError : ProcessorError → ShiftError
  | .fullDestination => .fullDestination
  | .emptyOrigin => .emptyOrigin

/-- Amount-determination prefix of `ShiftAmountActivity.main_process_function`
(`shift_amount_activity.py` lines 124-131): call
`determine_processor_amount`, then raise a `RuntimeError` when the determined
amount equals `0`.  This prefix runs before any container `get`/`put` or
resource request, so an error here is raised immediately, without blocking. -/
def shiftAmountStartAmount (origin destination : Container)
    (amount : Option ℚ) : Except ShiftError ℚ :=
  match determine_processor_amount origin destination amount with
  | .error e => .error (ShiftError.ofProcessorError e)
  | .ok a => if a = 0 then .error .emptyOriginOrFullDestination else .ok a

/-- One run-length block of `OffshoreEnvironment.find_window`
(`weather.py` lines 496-523): `start` is the first timestamp of a maximal run
of equal `limit_exceeded` values, `stop` is the next block's start (`none` for
the final block, whose `end_date` is `NaT` after the `shift(-1)`), and
`exceeded` is the run's `limit_exceeded` value. -/
structure WeatherBlock where
  start : ℚ
  stop : Option ℚ
  exceeded : Bool
deriving DecidableEq

/-- Rows that open a new run, given the previous row's `limit_exceeded`
value: a row is kept exactly when its value differs from its predecessor
(`limit_exceeded.shift(1) != limit_exceeded`). -/
def runStartsAux (prev : Bool) : List (ℚ × Bool) → List (ℚ × Bool)
  | [] => []
  | (t, b) :: rest =>
    if b == prev then runStartsAux prev rest
    else (t, b) :: runStartsAux b rest

/-- First element of every maximal run of consecutive equal booleans: the
`groupby("block").date.first()` / `limit_exceeded.first()` step of
`find_window`, where `block` is the cumulative sum of value changes and the
first row always opens a block (`NaN != x` holds in pandas). -/
def runStarts : List (ℚ × Bool) → List (ℚ × Bool)
  | [] => []
  | (t, b) :: rest => (t, b) :: runStartsAux b rest

/-- Pair every block start with the next block's start (`end_date =
start_date.shift(-1)`); the final block gets `none` (`NaT`). -/
def withEnds : List (ℚ × Bool) → List WeatherBlock
  | [] => []
  | [(t, b)] => [⟨t, none, b⟩]
  | (t, b) :: (t2, b2) :: rest => ⟨t, some t2, b⟩ :: withEnds ((t2, b2) :: rest)

/-- Consecutive constant-`limit_exceeded` blocks of a boolean time series, as
built by `find_window` from the joined dataframe. -/
def blocksOf (rows : List (ℚ × Bool)) : List WeatherBlock :=
  withEnds (runStarts rows)

/-- Test `length >= duration AND not limit_exceeded` for one block
(`weather.py` lines 527-529).  A block with unknown end (`NaT` end date, hence
`NaN` length) fails the comparison, exactly as `NaN >= duration` is false in
pandas. -/
def longEnoughWorkable (duration : ℚ) (b : WeatherBlock) : Bool :=
  match b.stop with
  | none => false
  | some e => decide (duration ≤ e - b.start) && !b.exceeded

/-- Full filter applied by `find_window` (`weather.py` lines 527-531):
long enough, not limit-exceeded, and starting at-or-after the current clock
time. -/
def windowQualifies (duration now : ℚ) (b : WeatherBlock) : Bool :=
  longEnoughWorkable duration b && decide (now ≤ b.start)

/-- Diagnostic printed by the `IndexError` fallback of `find_window`
(`weather.py` lines 538-545). -/
def weatherSkipMessage : String :=
  "The waiting on weather event has been skipped"

/-- Core of `OffshoreEnvironment.find_window` (`weather.py` lines 496-552)
acting on the per-timestamp `limit_exceeded` series: take the first block
passing the filter and return the wait until its start, or fall back to a
delay of `0` with a diagnostic message when the selection `iloc[0]` raises
`IndexError` because no block qualifies. -/
def findWindowDelay (rows : List (ℚ × Bool)) (duration now : ℚ) :
    ℚ × List String :=
  match ((blocksOf rows).filter (windowQualifies duration now)).head? with
  | some b => (b.start - now, [])
  | none => (0, [weatherSkipMessage])

/-- Stored environmental data of an `OffshoreEnvironment`: the instance
attributes written by `store_information`, each a named series of
(timestamp, value) samples. -/
structure OffshoreEnvironment where
  store : List (String × List (ℚ × ℚ))
deriving DecidableEq

/-- Attribute lookup `self.__dict__[var]` performed by `find_window`. -/
def OffshoreEnvironment.lookupVar (oe : OffshoreEnvironment) (v : String) :
    Option (List (ℚ × ℚ)) :=
  (oe.store.find? (fun p => p.1 == v)).map Prod.snd

/-- Look up every variable used by the limit expression; `none` models the
`KeyError` raised when one is missing from the database. -/
def OffshoreEnvironment.lookupVars (oe : OffshoreEnvironment) :
    List String → Option (List (List (ℚ × ℚ)))
  | [] => some []
  | v :: vs =>
    match oe.lookupVar v, oe.lookupVars vs with
    | some s, some ss => some (s :: ss)
    | _, _ => none

/-- Join the looked-up series into per-timestamp rows (`pd.concat` on a
shared index): defined when all series carry the same timestamp index,
`none` modelling the merge failure branch. -/
def joinSeries (series : List (List (ℚ × ℚ))) :
    Option (List (ℚ × List ℚ)) :=
  match series with
  | [] => none
  | s :: rest =>
    if rest.all (fun r => r.map Prod.fst == s.map Prod.fst) then
      some ((List.range s.length).map (fun i =>
        (((s.get? i).map Prod.fst).getD 0,
          (s :: rest).map (fun r => ((r.get? i).map Prod.snd).getD 0))))
    else
      none

/-- Translation of `OffshoreEnvironment.find_window` (`weather.py` lines
447-552) with explicit state passing: read the stored series for the limit
expression's variables, join them, evaluate `limit_exceeded` per timestamp,
run the block search, and return the delay, the diagnostic log, and the
post-call state.  The Python body assigns nothing to `self` (every pandas
operation acts on fresh frames), so the post-call state is the input state. -/
def OffshoreEnvironment.find_window (oe : OffshoreEnvironment)
    (vars : List String) (limit_expr : List ℚ → Bool) (duration now : ℚ) :
    Except String ((ℚ × List String) × OffshoreEnvironment) :=
  match oe.lookupVars vars with
  | none =>
    .error "limit_expr uses arguments that are not present in the database"
  | some series =>
    match joinSeries series with
    | none => .error "Unable to merge the constraining variables"
    | some rows =>
      let exceeded := rows.map (fun r => (r.1, limit_expr r.2))
      .ok (findWindowDelay exceeded duration now, oe)

/-- Boolean series of Scenario 5 of the specification: hourly ticks from hour
0 to hour 5 (epoch seconds) with `limit_exceeded` values
`[False, False, True, True, False, False]`. -/
def scenarioSeries : List (ℚ × Bool) :=
  [(0, false), (3600, false), (7200, true), (10800, true),
    (14400, false), (18000, false)]

/-- The while loop of `ConditionProcessMixin.conditional_process`
(`while_activity.py` lines 57-87), as a fuel recursion: `remaining` is
`max_iterations - ii` and `processed k` is the value of
`condition_event.processed` observed at the loop check entered after `k`
completed passes.  Each loop body runs every sub-process once, in list
order; the result is the trace of executed sub-processes together with the
final pass counter `ii`. -/
def condLoop (processed : ℕ → Bool) (subs : List String) :
    ℕ → ℕ → List String × ℕ
  | 0, ii => ([], ii)
  | r + 1, ii =>
    if processed ii then ([], ii)
    else
      (subs ++ (condLoop processed subs r (ii + 1)).1,
        (condLoop processed subs r (ii + 1)).2)

/-- Translation of the iteration structure of `conditional_process`: start at
`ii = 0` and loop while the condition event is unprocessed and
`ii < max_iterations`. -/
def conditional_process (processed : ℕ → Bool) (subs : List String)
    (max_iterations : ℕ) : List String × ℕ :=
  condLoop processed subs max_iterations 0

/-- The slice of a sub-activity visible to the `WhileActivity` /
`RepeatActivity` constructors: whether it was created with deferred start. -/
structure SubProcess where
  postpone_start : Bool
deriving DecidableEq

/-- The `for sub_process in self.sub_processes: if not
sub_process.postpone_start: raise Exception(...)` check shared by
`WhileActivity.__init__` (`while_activity.py` lines 120-124) and
`RepeatActivity.__init__` (lines 158-162): fail at the first eagerly-started
sub-activity. -/
def checkSubProcesses (activity_kind name : String) :
    List SubProcess → Except String Unit
  | [] => .ok ()
  | s :: rest =>
    if s.postpone_start then checkSubProcesses activity_kind name rest
    else
      .error ("In " ++ activity_kind ++ " activity " ++ name ++
        " the sub_process must have postpone_start=True")

/-- State established by a successful `WhileActivity` / `RepeatActivity`
construction: the stored sub-process list and the iteration cap. -/
structure CompositeActivityState where
  sub_processes : List SubProcess
  max_iterations : ℕ
deriving DecidableEq

/-- Translation of `WhileActivity.__init__` (`while_activity.py` lines
115-129): validate the sub-process list, then store it with the fixed cap
`max_iterations = 1_000_000`. -/
def WhileActivity.init (name : String) (sub_processes : List SubProcess) :
    Except String CompositeActivityState :=
  (checkSubProcesses "While" name sub_processes).map
    (fun _ => ⟨sub_processes, 1000000⟩)

/-- Translation of `RepeatActivity.__init__` (`while_activity.py` lines
152-168): validate the sub-process list, then store it with
`max_iterations = repetitions`. -/
def RepeatActivity.init (name : String) (sub_processes : List SubProcess)
    (repetitions : ℕ) : Except String CompositeActivityState :=
  (checkSubProcesses "Repeat" name sub_processes).map
    (fun _ => ⟨sub_processes, repetitions⟩)

/-- Filter `windows[windows[:, 1] >= thr]` of
`WeatherPluginActivity.check_constraint` (`weather.py` line 125): keep the
windows whose end (column 1) is at-or-after the threshold. -/
def ccFilter (windows : List (ℚ × ℚ)) (thr : ℚ) : List (ℚ × ℚ) :=
  windows.filter (fun w => decide (thr ≤ w.2))

/-- The look-back widening loop of `check_constraint` (`weather.py` lines
126-130): while the filtered list is empty and `i < 10`, refilter with the
threshold lowered by `i` dataset spans and increment `i`.  `fuel` is
`10 - i`. -/
def ccLoop (windows : List (ℚ × ℚ)) (span start_time : ℚ) :
    ℕ → ℕ → List (ℚ × ℚ) → List (ℚ × ℚ)
  | _, 0, fw => fw
  | i, fuel + 1, fw =>
    if fw.isEmpty then
      ccLoop windows span start_time (i + 1) fuel
        (ccFilter windows (start_time - i * span))
    else fw

/-- Translation of `WeatherPluginActivity.check_constraint` (`weather.py`
lines 118-132): filter the precomputed windows, widen the look-back up to 10
times, then take element `0` of the final filtered list — an uncaught
`IndexError` when it is empty. -/
def check_constraint (windows : List (ℚ × ℚ)) (ts_start ts_stop : ℚ)
    (start_time : ℚ) : Except String (ℚ × ℚ) :=
  match (ccLoop windows (ts_stop - ts_start) start_time 0 10
      (ccFilter windows start_time)).head? with
  | some w => .ok w
  | none => .error "IndexError"

/-- Translation of `WeatherPluginActivity.pre_process` (`weather.py` lines
98-116): call `check_constraint` (errors propagate uncaught) and turn the
returned range into a waiting delay — positive when the range starts after
the current time `t`, otherwise zero (the empty dict branch). -/
def weather_plugin_pre_process (windows : List (ℚ × ℚ))
    (ts_start ts_stop t : ℚ) : Except String ℚ :=
  match check_constraint windows ts_start ts_stop t with
  | .error e => .error e
  | .ok determined_range =>
    if t < determined_range.1 then .ok (determined_range.1 - t) else .ok 0

/-- Which of the three resources touched by
`ShiftAmountActivity.main_process_function` are currently held.  The
destination resource is acquired before the reservation loop
(`shift_amount_activity.py` line 133) and is untouched by the loop. -/
structure HeldResources where
  dest : Bool
  processor : Bool
  origin : Bool
deriving DecidableEq

/-- Adversary-chosen observations for one pass of the reservation loop of
`_request_resource_if_available`: the origin/site container level seen at
each of the three re-check points (a concurrent process may have changed it
at every yield), and whether the processor had to move to the site first. -/
structure IterObs where
  levelAfterProcessor : ℚ
  needsMove : Bool
  levelAfterMove : ℚ
  levelAfterOrigin : ℚ
deriving DecidableEq

/-- One iteration of the reservation loop
(`shift_amount_activity.py` lines 70-110), starting from the wait on
`get_available` with only the destination resource held.  Returns whether
`all_available` became true, together with the resources held when the
iteration ends: every `continue` branch first releases what the iteration
had acquired (the processor resource, and the origin resource when it was
the third check that failed). -/
def reservationIter (amount : ℚ) (o : IterObs) : Bool × HeldResources :=
  -- request processor.resource
  if o.levelAfterProcessor < amount then
    -- release processor, continue
    (false, ⟨true, false, false⟩)
  else if o.needsMove && decide (o.levelAfterMove < amount) then
    -- moved, level stale again: release processor, continue
    (false, ⟨true, false, false⟩)
  else if o.levelAfterOrigin < amount then
    -- request origin succeeded but level stale: release processor and origin
    (false, ⟨true, false, false⟩)
  else
    (true, ⟨true, true, true⟩)

/-- The reservation loop run against a finite adversary schedule (one
`IterObs` per pass).  `none` means the schedule ended before the loop
completed; `some` returns the held resources and, when the loop body ran,
the origin level observed at the final successful re-check.  The loop guard
is `not all_available and amount > 0`, so a non-positive amount completes
immediately with only the destination resource held. -/
def reservationLoop (amount : ℚ) : List IterObs →
    Option (HeldResources × Option ℚ)
  | [] =>
    if amount ≤ 0 then some (⟨true, false, false⟩, none) else none
  | o :: rest =>
    if amount ≤ 0 then some (⟨true, false, false⟩, none)
    else
      match reservationIter amount o with
      | (true, h) => some (h, some o.levelAfterOrigin)
      | (false, _) => reservationLoop amount rest

/-- Spec-side view of `_release_resource` as used at the end of
`main_process_function`.  Modelled from the spec: the helper body
(`base_activities.py`) is not under `src/`; per the spec, a release is
skipped for any resource listed in the kept resources, and releasing removes
the held request.  Resources are identified by ids; the result is the
remaining held list and the emitted release events. -/
def release_resource (requests : List ℕ) (r : ℕ) (kept : List ℕ) :
    List ℕ × List ℕ :=
  if r ∈ kept then (requests, [])
  else if r ∈ requests then (requests.erase r, [r])
  else (requests, [])

/-- The release epilogue of `main_process_function`
(`shift_amount_activity.py` lines 199-210): release the destination
resource, then the origin resource when still requested, then the processor
resource when still requested.  Returns the remaining held requests and the
releases in emission order. -/
def releaseSequence (requests : List ℕ) (dest origin processor : ℕ)
    (kept : List ℕ) : List ℕ × List ℕ :=
  let s1 := release_resource requests dest kept
  let s2 :=
    if origin ∈ s1.1 then release_resource s1.1 origin kept else (s1.1, [])
  let s3 :=
    if processor ∈ s2.1 then release_resource s2.1 processor kept
    else (s2.1, [])
  (s3.1, s1.2 ++ s2.2 ++ s3.2)

/-! Theorems. -/

/-- Claim C1: whenever `determine_processor_amount` determines an amount (the
destination has free capacity and the origin has content, so neither
`ValueError` fires), that amount is `min(destination capacity - destination
level, origin level)`, further capped by the user-specified amount when one
is given. -/
theorem determine_processor_amount_is_min (origin destination : Container)
    (amount : Option ℚ)
    (hdest : 0 < destination.get_capacity - destination.get_level)
    (horig : 0 < origin.get_level) :
    determine_processor_amount origin destination amount =
      .ok (amount.elim
        (min (destination.get_capacity - destination.get_level)
          origin.get_level)
        (fun a =>
          min a (min (destination.get_capacity - destination.get_level)
            origin.get_level))) := by
  unfold determine_processor_amount
  rw [if_neg (by linarith), if_neg (by linarith)]
  cases amount with
  | none => simp [min_comm]
  | some a => simp [min_comm]

/-- Witness for C1: destination capacity 10, level 4 (free 6), origin level
3, user cap 2 — the determined amount is `min 2 (min 6 3) = 2`. -/
theorem determine_processor_amount_is_min_witness :
    (0 : ℚ) < Container.get_capacity ⟨10, 4⟩ - Container.get_level ⟨10, 4⟩ ∧
    (0 : ℚ) < Container.get_level ⟨10, 3⟩ ∧
    determine_processor_amount ⟨10, 3⟩ ⟨10, 4⟩ (some 2) = .ok 2 := by
  refine ⟨by norm_num [Container.get_capacity, Container.get_level],
    by norm_num [Container.get_level], ?_⟩
  rw [determine_processor_amount_is_min ⟨10, 3⟩ ⟨10, 4⟩ (some 2)
    (by norm_num [Container.get_capacity, Container.get_level])
    (by norm_num [Container.get_level])]
  norm_num [Container.get_capacity, Container.get_level]

/-- Claim C2, counterexample: with origin level 5, destination capacity 10 /
level 0 and user-specified cap `-1`, the determined transferable amount is
`-1 ≤ 0`, yet starting the shift raises no error at all: the guard at
`shift_amount_activity.py` line 128 tests `== 0`, not `<= 0`, so the claim
as stated (every non-positive determined amount fails fast) is false. -/
theorem shift_amount_nonpositive_counterexample :
    determine_processor_amount ⟨10, 5⟩ ⟨10, 0⟩ (some (-1)) = .ok (-1) ∧
    (-1 : ℚ) ≤ 0 ∧
    shiftAmountStartAmount ⟨10, 5⟩ ⟨10, 0⟩ (some (-1)) = .ok (-1) := by
  refine ⟨?_, by norm_num, ?_⟩ <;>
    norm_num [shiftAmountStartAmount, determine_processor_amount,
      Container.get_capacity, Container.get_level]

/-- Claim C2, amended: if the origin is empty, the destination is full, or
the determined amount is exactly zero, starting a `ShiftAmountActivity`
raises a fatal error immediately (mentioning shifting from an empty origin
or to a full destination) — the start prefix contains no container
transaction, so it never blocks; a strictly negative determined amount
(reachable only through a negative user-specified cap) escapes the guard. -/
theorem shift_amount_zero_empty_full_fails_fast
    (origin destination : Container) (cap : Option ℚ)
    (h : origin.get_level ≤ 0 ∨
      destination.get_capacity - destination.get_level ≤ 0 ∨
      determine_processor_amount origin destination cap = .ok 0) :
    ∃ e, shiftAmountStartAmount origin destination cap = .error e := by
  unfold shiftAmountStartAmount determine_processor_amount
  by_cases hdest : destination.get_capacity - destination.get_level ≤ 0
  · exact ⟨.fullDestination, by rw [if_pos hdest]; rfl⟩
  by_cases horig : origin.get_level ≤ 0
  · exact ⟨.emptyOrigin, by rw [if_neg hdest, if_pos horig]; rfl⟩
  rcases h with h | h | h
  · exact absurd h horig
  · exact absurd h hdest
  · unfold determine_processor_amount at h
    rw [if_neg hdest, if_neg horig] at h ⊢
    cases cap with
    | none =>
      simp only [Except.ok.injEq] at h
      exact ⟨.emptyOriginOrFullDestination, by simp [h]⟩
    | some a =>
      simp only [Except.ok.injEq] at h
      exact ⟨.emptyOriginOrFullDestination, by simp [h]⟩

/-- Witness for C2 (amended): an empty origin (level 0) makes the start of
the shift fail fast. -/
theorem shift_amount_zero_empty_full_fails_fast_witness :
    Container.get_level ⟨10, 0⟩ ≤ 0 ∧
    ∃ e, shiftAmountStartAmount ⟨10, 0⟩ ⟨10, 5⟩ none = .error e :=
  ⟨by norm_num [Container.get_level],
    shift_amount_zero_empty_full_fails_fast ⟨10, 0⟩ ⟨10, 5⟩ none
      (Or.inl (by norm_num [Container.get_level]))⟩

/-- Block starts are a selection of the input rows. -/
theorem runStartsAux_sublist (prev : Bool) (l : List (ℚ × Bool)) :
    List.Sublist (runStartsAux prev l) l := by
  induction l generalizing prev with
  | nil => simp [runStartsAux]
  | cons p rest ih =>
    obtain ⟨t, b⟩ := p
    simp only [runStartsAux]
    split
    · exact (ih prev).cons _
    · exact (ih b).cons₂ _

/-- Block starts of the run-length encoding are a selection of the rows. -/
theorem runStarts_sublist (l : List (ℚ × Bool)) : List.Sublist (runStarts l) l := by
  cases l with
  | nil => simp [runStarts]
  | cons p rest =>
    obtain ⟨t, b⟩ := p
    exact (runStartsAux_sublist b rest).cons₂ _

/-- Attaching end dates keeps the starts unchanged. -/
theorem withEnds_map_start (l : List (ℚ × Bool)) :
    (withEnds l).map WeatherBlock.start = l.map Prod.fst := by
  induction l with
  | nil => rfl
  | cons p rest ih =>
    cases rest with
    | nil => obtain ⟨t, b⟩ := p; rfl
    | cons q rest2 =>
      obtain ⟨t, b⟩ := p
      obtain ⟨t2, b2⟩ := q
      simpa [withEnds] using ih

/-- For strictly increasing timestamps the block starts are strictly
increasing as well. -/
theorem blocksOf_start_pairwise (rows : List (ℚ × Bool))
    (h : (rows.map Prod.fst).Pairwise (· < ·)) :
    (blocksOf rows).Pairwise (fun x y => x.start < y.start) := by
  have hsub : List.Sublist ((runStarts rows).map Prod.fst) (rows.map Prod.fst) :=
    (runStarts_sublist rows).map Prod.fst
  have hruns : ((runStarts rows).map Prod.fst).Pairwise (· < ·) :=
    h.sublist hsub
  have : ((blocksOf rows).map WeatherBlock.start).Pairwise (· < ·) := by
    rw [blocksOf, withEnds_map_start]
    exact hruns
  exact (List.pairwise_map).1 this

/-- Claim C3, counterexample: for the boolean series
`[False, False, True, True, False, False]` at hourly ticks, duration 2 h
and start at hour 2, the gate does not wait until hour 4: the final safe
block starting at hour 4 has an unknown end (`NaN` length fails the
`length >= duration` filter), no block qualifies, and the `IndexError`
fallback returns a delay of `0`, not the claimed `14400 - 7200`. -/
theorem find_window_scenario5_counterexample :
    (findWindowDelay scenarioSeries 7200 7200).1 = 0 ∧
    (14400 : ℚ) - 7200 ≠ 0 := by
  constructor
  · norm_num [findWindowDelay, blocksOf, runStarts, runStartsAux, withEnds,
      scenarioSeries, List.filter, windowQualifies, longEnoughWorkable]
  · norm_num

/-- Claim C3, amended: the returned delay is the wait until the start of the
first (chronologically earliest, for sorted data) block that starts
at-or-after the current clock time, is not limit-exceeded, and whose
known-end length is at least `duration`; the final block of the data never
qualifies (its end is unknown), and a window merely containing the current
time does not qualify (the filter compares block starts).  When no block
qualifies the delay is `0` via the fallback; in particular the Scenario-5
query (series `[F,F,T,T,F,F]`, duration 2 h, start at hour 2) returns `0`
instead of the time remaining until hour 4. -/
theorem find_window_first_qualifying_window (rows : List (ℚ × Bool))
    (duration now : ℚ) (hsort : (rows.map Prod.fst).Pairwise (· < ·)) :
    (∀ b, ((blocksOf rows).filter (windowQualifies duration now)).head? =
        some b →
      (findWindowDelay rows duration now).1 = b.start - now ∧
      windowQualifies duration now b = true ∧
      ∀ b2 ∈ blocksOf rows, windowQualifies duration now b2 = true →
        b.start ≤ b2.start) ∧
    (((blocksOf rows).filter (windowQualifies duration now)).head? = none →
      findWindowDelay rows duration now = (0, [weatherSkipMessage])) ∧
    (findWindowDelay scenarioSeries 7200 7200).1 = 0 := by
  refine ⟨?_, ?_, ?_⟩
  · intro b hb
    have hpairs : ((blocksOf rows).filter
        (windowQualifies duration now)).Pairwise
        (fun x y => x.start < y.start) :=
      (blocksOf_start_pairwise rows hsort).sublist (List.filter_sublist _)
    refine ⟨by simp [findWindowDelay, hb], ?_, ?_⟩
    · have := List.mem_of_mem_head? hb
      exact (List.mem_filter.1 this).2
    · intro b2 hb2 hq2
      have hmem2 : b2 ∈ (blocksOf rows).filter (windowQualifies duration now) :=
        List.mem_filter.2 ⟨hb2, hq2⟩
      rcases hf : (blocksOf rows).filter (windowQualifies duration now) with
        _ | ⟨c, t⟩
      · rw [hf] at hmem2; cases hmem2
      · rw [hf] at hb hmem2 hpairs
        simp only [List.head?_cons, Option.some.injEq] at hb
        subst hb
        rcases List.mem_cons.1 hmem2 with rfl | hmem2
        · exact le_refl _
        · exact le_of_lt ((List.pairwise_cons.1 hpairs).1 b2 hmem2)
  · intro hnone
    simp [findWindowDelay, hnone]
  · norm_num [findWindowDelay, blocksOf, runStarts, runStartsAux, withEnds,
      scenarioSeries, List.filter, windowQualifies, longEnoughWorkable]

/-- Witness for C3 (amended): the Scenario-5 series is sorted, and the gate
returns `0` for the hour-2 query. -/
theorem find_window_first_qualifying_window_witness :
    ((scenarioSeries.map Prod.fst).Pairwise (· < ·)) ∧
    (findWindowDelay scenarioSeries 7200 7200).1 = 0 :=
  ⟨by norm_num [scenarioSeries],
    (find_window_first_qualifying_window scenarioSeries 7200 7200
      (by norm_num [scenarioSeries])).2.2⟩

/-- Claim C4: when no block of the data is simultaneously long enough and
not limit-exceeded, the gate returns a zero delay together with the
diagnostic message — the `IndexError` raised by the empty selection is
caught inside `find_window`, so the situation is never fatal. -/
theorem find_window_no_suitable_window_fallback (rows : List (ℚ × Bool))
    (duration now : ℚ)
    (h : ∀ b ∈ blocksOf rows, longEnoughWorkable duration b = false) :
    findWindowDelay rows duration now = (0, [weatherSkipMessage]) := by
  have hnil : (blocksOf rows).filter (windowQualifies duration now) = [] := by
    rw [List.filter_eq_nil_iff]
    intro b hb
    simp [windowQualifies, h b hb]
  simp [findWindowDelay, hnil]

/-- Witness for C4: a series that is limit-exceeded throughout has no
suitable window; the gate yields delay `0` plus the diagnostic. -/
theorem find_window_no_suitable_window_fallback_witness :
    (∀ b ∈ blocksOf [((0 : ℚ), true), ((3600 : ℚ), true)],
      longEnoughWorkable 7200 b = false) ∧
    findWindowDelay [((0 : ℚ), true), ((3600 : ℚ), true)] 7200 0 =
      (0, [weatherSkipMessage]) :=
  ⟨by norm_num [blocksOf, runStarts, runStartsAux, withEnds,
      longEnoughWorkable],
    find_window_no_suitable_window_fallback _ 7200 0
      (by norm_num [blocksOf, runStarts, runStartsAux, withEnds,
        longEnoughWorkable])⟩

/-- Unrolling of the conditional-process loop when the condition event is
never processed: every pass runs the full sub-process list and the counter
advances by the remaining fuel. -/
theorem condLoop_never_processed (processed : ℕ → Bool) (subs : List String)
    (h : ∀ k, processed k = false) :
    ∀ r ii, condLoop processed subs r ii =
      ((List.replicate r subs).flatten, ii + r) := by
  intro r
  induction r with
  | zero => intro ii; simp [condLoop]
  | succ n ih =>
    intro ii
    simp only [condLoop, h ii, Bool.false_eq_true, if_false, ih (ii + 1),
      List.replicate_succ, List.flatten_cons, Prod.mk.injEq, true_and]
    omega

/-- Claim C5: a `While` (or `Repeat`) conditional process whose condition
event never triggers executes exactly `max_iterations` full passes over its
sub-activities — the trace is `max_iterations` copies of the sub-process
list, the final counter equals `max_iterations`, and the loop ends by
returning normally (the function is total; reaching the cap produces a
value, not an error). -/
theorem while_condition_never_triggers_runs_cap (processed : ℕ → Bool)
    (subs : List String) (max_iterations : ℕ)
    (h : ∀ k, processed k = false) :
    conditional_process processed subs max_iterations =
      ((List.replicate max_iterations subs).flatten, max_iterations) := by
  unfold conditional_process
  rw [condLoop_never_processed processed subs h max_iterations 0]
  simp

/-- Witness for C5: two sub-activities, cap 3, condition never processed —
exactly three full passes. -/
theorem while_condition_never_triggers_runs_cap_witness :
    conditional_process (fun _ => false) ["load", "unload"] 3 =
      (["load", "unload", "load", "unload", "load", "unload"], 3) := by
  rw [while_condition_never_triggers_runs_cap (fun _ => false)
    ["load", "unload"] 3 (fun _ => rfl)]
  rfl

/-- The sub-process validation fails as soon as the list contains an
eagerly-started entry. -/
theorem checkSubProcesses_error_of_eager (activity_kind name : String) :
    ∀ subs : List SubProcess, (∃ s ∈ subs, s.postpone_start = false) →
      ∃ m, checkSubProcesses activity_kind name subs = .error m := by
  intro subs
  induction subs with
  | nil => rintro ⟨s, hs, _⟩; cases hs
  | cons a rest ih =>
    rintro ⟨s, hs, hfalse⟩
    simp only [checkSubProcesses]
    by_cases ha : a.postpone_start
    · rw [if_pos ha]
      apply ih
      rcases List.mem_cons.1 hs with rfl | hmem
      · exact absurd hfalse (by simp [ha])
      · exact ⟨s, hmem, hfalse⟩
    · rw [if_neg ha]
      exact ⟨_, rfl⟩

/-- Claim C7: constructing a `WhileActivity` or a `RepeatActivity` from a
sub-activity list containing an entry without deferred start
(`postpone_start = False`) fails immediately with an exception, at
model-definition time, before any simulation step. -/
theorem composite_init_rejects_eager_sub (name : String)
    (subs : List SubProcess) (repetitions : ℕ)
    (h : ∃ s ∈ subs, s.postpone_start = false) :
    (∃ m, WhileActivity.init name subs = .error m) ∧
    (∃ m, RepeatActivity.init name subs repetitions = .error m) := by
  obtain ⟨mw, hmw⟩ := checkSubProcesses_error_of_eager "While" name subs h
  obtain ⟨mr, hmr⟩ := checkSubProcesses_error_of_eager "Repeat" name subs h
  exact ⟨⟨mw, by unfold WhileActivity.init; rw [hmw]; rfl⟩,
    ⟨mr, by unfold RepeatActivity.init; rw [hmr]; rfl⟩⟩

/-- Witness for C7: a single eagerly-started sub-activity is rejected by
both constructors. -/
theorem composite_init_rejects_eager_sub_witness :
    (∃ s ∈ [(⟨false⟩ : SubProcess)], s.postpone_start = false) ∧
    (∃ m, WhileActivity.init "w" [⟨false⟩] = .error m) ∧
    (∃ m, RepeatActivity.init "r" [⟨false⟩] 2 = .error m) :=
  ⟨by decide, (composite_init_rejects_eager_sub "w" [⟨false⟩] 2 (by decide)).1,
    (composite_init_rejects_eager_sub "r" [⟨false⟩] 2 (by decide)).2⟩

/-- Claim C6: in the reservation loop of
`_request_resource_if_available`, every iteration that observes a stale
level (below the required amount) after acquiring the processor resource,
after the move, or after acquiring the origin resource, releases the
resources the iteration acquired before retrying — it ends holding only the
destination resource; and whenever the loop completes (for a positive
amount), the destination, processor and origin resources are all held
simultaneously and the last level check observed at least the required
amount. -/
theorem shift_reservation_retry_invariant (amount : ℚ)
    (obs : List IterObs) (hpos : 0 < amount) :
    (∀ o : IterObs, (reservationIter amount o).1 = false →
      (reservationIter amount o).2 = ⟨true, false, false⟩) ∧
    (∀ held lvl, reservationLoop amount obs = some (held, lvl) →
      held = ⟨true, true, true⟩ ∧ ∃ l0, lvl = some l0 ∧ amount ≤ l0) := by
  constructor
  · intro o hretry
    unfold reservationIter at hretry ⊢
    split_ifs at hretry ⊢ <;> simp_all
  · induction obs with
    | nil =>
      intro held lvl hloop
      unfold reservationLoop at hloop
      rw [if_neg (by linarith)] at hloop
      cases hloop
    | cons o rest ih =>
      intro held lvl hloop
      unfold reservationLoop at hloop
      rw [if_neg (by linarith)] at hloop
      revert hloop
      unfold reservationIter
      split_ifs with h1 h2 h3
      · intro hloop; exact ih held lvl hloop
      · intro hloop; exact ih held lvl hloop
      · intro hloop; exact ih held lvl hloop
      · intro hloop
        simp only [Option.some.injEq, Prod.mk.injEq] at hloop
        refine ⟨hloop.1.symm, o.levelAfterOrigin, hloop.2.symm, ?_⟩
        exact le_of_not_lt h3

/-- Witness for C6: amount 2, one iteration whose checks all see level 3 —
the loop completes holding all three resources with a non-stale level. -/
theorem shift_reservation_retry_invariant_witness :
    (0 : ℚ) < 2 ∧
    ((⟨true, true, true⟩ : HeldResources) = ⟨true, true, true⟩ ∧
      ∃ l0, some (3 : ℚ) = some l0 ∧ (2 : ℚ) ≤ l0) :=
  ⟨by norm_num,
    (shift_reservation_retry_invariant 2 [⟨3, false, 0, 3⟩]
      (by norm_num)).2 ⟨true, true, true⟩ (some 3)
      (by norm_num [reservationLoop, reservationIter])⟩

/-- Claim C8: after a completed shift the emitted releases are exactly the
held, not-kept resources among destination, origin and processor — in that
fixed order — and no resource listed in the kept resources is ever
released. -/
theorem release_sequence_order_and_kept (requests : List ℕ)
    (dest origin processor : ℕ) (kept : List ℕ)
    (hdo : dest ≠ origin) (hdp : dest ≠ processor) (hop : origin ≠ processor) :
    (releaseSequence requests dest origin processor kept).2 =
      [dest, origin, processor].filter
        (fun r => decide (r ∈ requests) && !decide (r ∈ kept)) ∧
    ∀ r ∈ (releaseSequence requests dest origin processor kept).2,
      r ∉ kept := by
  have hmain : (releaseSequence requests dest origin processor kept).2 =
      [dest, origin, processor].filter
        (fun r => decide (r ∈ requests) && !decide (r ∈ kept)) := by
    simp only [releaseSequence, release_resource]
    by_cases h1 : dest ∈ kept <;> by_cases h2 : dest ∈ requests <;>
    by_cases h3 : origin ∈ kept <;> by_cases h4 : origin ∈ requests <;>
    by_cases h5 : processor ∈ kept <;> by_cases h6 : processor ∈ requests <;>
      simp [h1, h2, h3, h4, h5, h6, List.mem_erase_of_ne (Ne.symm hdo),
        List.mem_erase_of_ne (Ne.symm hdp), List.mem_erase_of_ne (Ne.symm hop),
        List.filter]
  refine ⟨hmain, ?_⟩
  intro r hr
  rw [hmain] at hr
  have hmem := (List.mem_filter.1 hr).2
  simp only [Bool.and_eq_true, Bool.not_eq_true', decide_eq_false_iff_not]
    at hmem
  exact hmem.2

/-- Witness for C8: with held requests `[1, 2, 3]`, destination 1, origin 2,
processor 3 and origin kept, the releases are `[1, 3]` in order and the kept
origin is not released. -/
theorem release_sequence_order_and_kept_witness :
    (1 ≠ 2 ∧ 1 ≠ 3 ∧ 2 ≠ 3) ∧
    (releaseSequence [1, 2, 3] 1 2 3 [2]).2 = [1, 3] ∧
    ∀ r ∈ (releaseSequence [1, 2, 3] 1 2 3 [2]).2, r ∉ [2] := by
  have h := release_sequence_order_and_kept [1, 2, 3] 1 2 3 [2]
    (by decide) (by decide) (by decide)
  refine ⟨by decide, ?_, h.2⟩
  rw [h.1]
  decide

/-- Claim C9: `find_window` does not mutate the stored environmental data —
a successful query returns the state it was given, and repeating the query
on the returned state with the same limit expression, duration and clock
time returns the identical delay (and diagnostic). -/
theorem find_window_idempotent (oe : OffshoreEnvironment)
    (vars : List String) (limit_expr : List ℚ → Bool) (duration now : ℚ)
    (p : (ℚ × List String) × OffshoreEnvironment)
    (h : oe.find_window vars limit_expr duration now = .ok p) :
    p.2 = oe ∧
    OffshoreEnvironment.find_window p.2 vars limit_expr duration now =
      .ok p := by
  have hstate : p.2 = oe := by
    unfold OffshoreEnvironment.find_window at h
    split at h
    · cases h
    · split at h
      · cases h
      · simp only [Except.ok.injEq] at h
        rw [← h]
  exact ⟨hstate, by rw [hstate]; exact h⟩

/-- Witness for C9: a one-variable store; the query succeeds and the
returned state is the stored data itself, so the repeated query returns the
same delay. -/
theorem find_window_idempotent_witness :
    OffshoreEnvironment.find_window ⟨[("hs", [(0, 1), (3600, 0)])]⟩ ["hs"]
      (fun vs => decide ((1 : ℚ) ≤ vs.headD 0)) 1800 0 =
      .ok ((0, [weatherSkipMessage]), ⟨[("hs", [(0, 1), (3600, 0)])]⟩) ∧
    (((0 : ℚ), [weatherSkipMessage]),
        (⟨[("hs", [(0, 1), (3600, 0)])]⟩ : OffshoreEnvironment)).2 =
      ⟨[("hs", [(0, 1), (3600, 0)])]⟩ ∧
    OffshoreEnvironment.find_window
      (((0 : ℚ), [weatherSkipMessage]),
        (⟨[("hs", [(0, 1), (3600, 0)])]⟩ : OffshoreEnvironment)).2 ["hs"]
      (fun vs => decide ((1 : ℚ) ≤ vs.headD 0)) 1800 0 =
      .ok ((0, [weatherSkipMessage]), ⟨[("hs", [(0, 1), (3600, 0)])]⟩) := by
  have heval : OffshoreEnvironment.find_window
      ⟨[("hs", [(0, 1), (3600, 0)])]⟩ ["hs"]
      (fun vs => decide ((1 : ℚ) ≤ vs.headD 0)) 1800 0 =
      .ok ((0, [weatherSkipMessage]), ⟨[("hs", [(0, 1), (3600, 0)])]⟩) := by
    norm_num [OffshoreEnvironment.find_window, OffshoreEnvironment.lookupVars,
      OffshoreEnvironment.lookupVar, joinSeries, List.range_succ,
      findWindowDelay, blocksOf, runStarts, runStartsAux, withEnds,
      List.filter, windowQualifies, longEnoughWorkable]
  have h := find_window_idempotent ⟨[("hs", [(0, 1), (3600, 0)])]⟩ ["hs"]
    (fun vs => decide ((1 : ℚ) ≤ vs.headD 0)) 1800 0
    ((0, [weatherSkipMessage]), ⟨[("hs", [(0, 1), (3600, 0)])]⟩) heval
  exact ⟨heval, h.1, h.2⟩

/-- An all-below-threshold window list filters to nothing. -/
theorem ccFilter_nil_of_lt (windows : List (ℚ × ℚ)) (thr : ℚ)
    (h : ∀ w ∈ windows, w.2 < thr) : ccFilter windows thr = [] := by
  rw [ccFilter, List.filter_eq_nil_iff]
  intro w hw
  simp only [decide_eq_true_eq]
  exact not_le.2 (h w hw)

/-- If every look-back threshold filters to nothing, the widening loop ends
empty. -/
theorem ccLoop_nil (windows : List (ℚ × ℚ)) (span start_time : ℚ)
    (hall : ∀ j : ℕ, j ≤ 9 →
      ccFilter windows (start_time - j * span) = []) :
    ∀ fuel i, i + fuel ≤ 10 →
      ccLoop windows span start_time i fuel [] = [] := by
  intro fuel
  induction fuel with
  | zero => intro i _; rfl
  | succ n ih =>
    intro i hle
    simp only [ccLoop, List.isEmpty_nil, if_true]
    rw [hall i (by omega)]
    exact ih (i + 1) (by omega)

/-- Claim C10: when no window of the precomputed list survives even the
widest of the 10 look-back widening attempts (in particular when the list
is empty), `check_constraint` indexes an empty array and the resulting
`IndexError` propagates uncaught out of `pre_process`, aborting the
activity's pre-processing instead of falling back to a zero delay. -/
theorem check_constraint_empty_windows_fatal (windows : List (ℚ × ℚ))
    (ts_start ts_stop t : ℚ) (hspan : ts_start ≤ ts_stop)
    (h : ∀ w ∈ windows, w.2 < t - 9 * (ts_stop - ts_start)) :
    weather_plugin_pre_process windows ts_start ts_stop t =
      .error "IndexError" := by
  have hspan0 : 0 ≤ ts_stop - ts_start := by linarith
  have hall : ∀ j : ℕ, j ≤ 9 →
      ccFilter windows (t - j * (ts_stop - ts_start)) = [] := by
    intro j hj
    apply ccFilter_nil_of_lt
    intro w hw
    have hcast : (j : ℚ) ≤ 9 := by exact_mod_cast hj
    have hmul : (j : ℚ) * (ts_stop - ts_start) ≤ 9 * (ts_stop - ts_start) :=
      mul_le_mul_of_nonneg_right hcast hspan0
    have := h w hw
    linarith
  have h0 : ccFilter windows t = [] := by
    have := hall 0 (by omega)
    simpa using this
  unfold weather_plugin_pre_process check_constraint
  rw [h0, ccLoop_nil windows _ t hall 10 0 (by omega)]
  rfl

/-- Witness for C10: one window ending at 5, dataset spanning 0..10, query
time 1000 — even the widest look-back misses it and pre-processing aborts
with the `IndexError`. -/
theorem check_constraint_empty_windows_fatal_witness :
    (0 : ℚ) ≤ 10 ∧
    (∀ w ∈ [((0 : ℚ), (5 : ℚ))], w.2 < 1000 - 9 * ((10 : ℚ) - 0)) ∧
    weather_plugin_pre_process [((0 : ℚ), (5 : ℚ))] 0 10 1000 =
      .error "IndexError" :=
  ⟨by norm_num, by norm_num,
    check_constraint_empty_windows_fatal [((0 : ℚ), (5 : ℚ))] 0 10 1000
      (by norm_num) (by norm_num)⟩

end OpenCLSim
